import Mathlib

/-!
Shallow embedding of the column-matching / recommendation engine and the
report-query builder of the `analytics-assistance` service.

Sources embedded:
* `app/services/column_matcher.py` (`_find_similar_columns`,
  `_generate_recommendations`, `match_columns`, `ColumnMatchResult.to_dict`)
* `app/services/report_generator.py` (`generate_report`, query-building part)
* `app/routes/analytics.py` (`analyze_columns`, step 5: response construction)
* `app/routes/schema.py` (`AnalyzeColumnsResponse`, field defaults)
* `app/models/llm_models.py` (`ColumnPlanOutput`)

Modelling conventions:
* Python `dict` objects whose keys may be absent are modelled with `Option`
  fields; a raised exception (e.g. `KeyError`) is modelled as `Option.none`
  in the result of the raising function.
* Python `set` values are modelled as `Finset String`; `list(s)` for a set
  `s` enumerates in an order CPython leaves unspecified, and we model the
  enumeration as the `≤`-sorted one (no claim below depends on which
  enumeration is chosen, and the fields that reach the API are sorted by
  the source itself via `sorted(...)`).
* Python strings are Lean `String`; `s.lower()` is `String.toLower`,
  `a in b` (substring test) is infix testing on the character lists,
  `str.split()` is split-on-whitespace with empty pieces dropped.
-/

namespace LlmAnalytics

/-- A scalar value carried by a filter mapping (JSON scalar: string or int). -/
inductive PyVal where
  | str (s : String)
  | int (n : Int)
  deriving DecidableEq, Repr

/-- A filter entry value: either a scalar (equality filter) or a mapping
from comparison operators to values, as in `{'mrr': {'>': 500}}`. -/
inductive PyFilter where
  | scalar (v : PyVal)
  | ops (l : List (String × PyVal))
  deriving DecidableEq, Repr

/-- A `filters` mapping: Python dicts preserve insertion order, so a list
of key/value pairs. -/
abbrev Filters := List (String × PyFilter)

/-- One entry of the schema's `columns` list.  The matcher only reads
`col["name"]`; `name = none` models a column dict without a `"name"` key
(the other keys of the dict are irrelevant to the embedded code). -/
structure PyColumn where
  name : Option String
  deriving DecidableEq, Repr

/-- The `table_schema` dict as consumed by `match_columns`:
`columns = none` models a dict without a `"columns"` key (the source reads
it with `table_schema.get("columns", [])`). -/
structure TableSchema where
  columns : Option (List PyColumn)
  deriving DecidableEq, Repr

/-- `ColumnPlanOutput` from `app/models/llm_models.py`: the structured LLM
result (the RequirementPlan). `sql_filters` defaults to `None` there,
hence an `Option`. -/
structure ColumnPlanOutput where
  technical_summary : String
  required_columns : List String
  optional_columns : List String
  assumptions : String
  sql_filters : Option Filters
  deriving DecidableEq, Repr

/-- `ColumnMatchResult` from `app/services/column_matcher.py`: note that the
class has NO `sql_filters` attribute (its `__init__` takes exactly these
seven arguments). -/
structure ColumnMatchResult where
  technical_summary : String
  required_columns : List String
  available_columns : List String
  missing_columns : List String
  optional_columns : List String
  assumptions : String
  recommendations : List String
  deriving DecidableEq, Repr

/-- Python substring test `part in s`. -/
def pyContains (part s : String) : Bool :=
  decide (part.data <:+: s.data)

/-- Python `str.split()` (no separator): split on whitespace, drop empty
pieces. -/
def pySplitWhitespace (s : String) : List String :=
  (s.split (fun c => c.isWhitespace)).filter (fun p => p ≠ "")

/-- `missing_parts` in `_find_similar_columns`:
`missing_col.lower().replace("_", " ").split()`. -/
def tokensOf (missing_col : String) : List String :=
  pySplitWhitespace ((missing_col.toLower).replace "_" " ")

/-- Inner loop of `_find_similar_columns`: scan `missing_parts`, succeed at
the first part with `len(part) > 2 and part in actual_lower` (the `break`
after appending means the first matching part ends the scan). -/
def anyPartMatches (parts : List String) (actual_lower : String) : Bool :=
  match parts with
  | [] => false
  | part :: rest =>
      if part.length > 2 && pyContains part actual_lower then true
      else anyPartMatches rest actual_lower

/-- Outer loop of `_find_similar_columns`: each actual column is appended
to `similar` at most once, in the iteration order of `actual_columns`. -/
def findSimilarLoop (missing_parts : List String) (actual_columns : List String) :
    List String :=
  match actual_columns with
  | [] => []
  | actual_col :: rest =>
      if anyPartMatches missing_parts (actual_col.toLower) then
        actual_col :: findSimilarLoop missing_parts rest
      else findSimilarLoop missing_parts rest

/-- `_find_similar_columns(missing_col, actual_columns)`. -/
def findSimilarColumns (missing_col : String) (actual_columns : List String) :
    List String :=
  findSimilarLoop (tokensOf missing_col) actual_columns

/-- ASCII apostrophe, as a string. -/
def apos : String := String.singleton (Char.ofNat 39)

/-- Message emitted when nothing is missing. -/
def allAvailableMsg : String :=
  "✅ All required columns are available. Analysis can proceed."

/-- Message listing available optional columns. -/
def optionalAvailableMsg (optional_available : List String) : String :=
  "💡 Optional columns available for enhanced analysis: " ++
    String.intercalate ", " optional_available

/-- Message stating the count and names of missing columns. -/
def missingMsg (missing_columns : List String) : String :=
  "⚠️  Missing " ++ toString missing_columns.length ++
    " required column(s): " ++ String.intercalate ", " missing_columns

/-- Message emitted when a partial analysis is possible. -/
def partialMsg (available_columns : List String) : String :=
  "✅ Partial analysis possible with: " ++
    String.intercalate ", " available_columns

/-- Message emitted when no required column is available. -/
def noAvailMsg : String :=
  "❌ No required columns available. Analysis cannot proceed with this table."

/-- Suggestion message for one missing column (`similar[:3]`). -/
def suggMsg (missing : String) (similar : List String) : String :=
  "💡 For " ++ apos ++ missing ++ apos ++ ", consider using: " ++
    String.intercalate ", " (similar.take 3)

/-- Generic closing message. -/
def genericAddMsg : String :=
  "📝 Consider adding these columns to your database schema."

/-- The `for missing in missing_columns` suggestion loop of
`_generate_recommendations`. -/
def suggestionMsgs (missing_columns actual_columns : List String) : List String :=
  match missing_columns with
  | [] => []
  | missing :: rest =>
      let similar := findSimilarColumns missing actual_columns
      (if similar.isEmpty then [] else [suggMsg missing similar]) ++
        suggestionMsgs rest actual_columns

/-- `_generate_recommendations(missing_columns, available_columns,
optional_columns, actual_columns)`. -/
def generateRecommendations (missing_columns available_columns optional_columns
    actual_columns : List String) : List String :=
  if missing_columns.isEmpty then
    let recommendations := [allAvailableMsg]
    let optional_available :=
      optional_columns.filter (fun col => actual_columns.contains col)
    if optional_available.isEmpty then recommendations
    else recommendations ++ [optionalAvailableMsg optional_available]
  else
    let recommendations := [missingMsg missing_columns]
    let recommendations := recommendations ++
      (if available_columns.isEmpty then [noAvailMsg]
       else [partialMsg available_columns])
    let recommendations := recommendations ++
      suggestionMsgs missing_columns actual_columns
    if available_columns.isEmpty &&
        !(recommendations.any (fun r => pyContains "consider using" r)) then
      recommendations ++ [genericAddMsg]
    else recommendations

/-- Evaluation of the set comprehension
`{col["name"] for col in cols}`: each `col["name"]` raises `KeyError`
(modelled `none`) when the `"name"` key is absent. -/
def columnNames (cols : List PyColumn) : Option (List String) :=
  match cols with
  | [] => some []
  | col :: rest =>
      match col.name with
      | none => none
      | some n => (columnNames rest).map (fun ns => n :: ns)

/-- `table_schema.get("columns", [])` followed by name extraction. -/
def getColumnNames (schema : TableSchema) : Option (List String) :=
  columnNames (schema.columns.getD [])

/-- How the source turns a set into a sorted list:
`sorted(list(s))`. -/
def sortedSet (s : Finset String) : List String :=
  s.sort (fun a b => a ≤ b)

/-- Body of `match_columns` once the actual column names are in hand:
set operations, recommendation generation, result construction.  The
unsorted `list(...)` arguments passed to `_generate_recommendations` are
modelled by the sorted enumeration of the corresponding sets (CPython's
set iteration order is unspecified). -/
def matchColumnsCore (actual_names : List String) (llm_output : ColumnPlanOutput) :
    ColumnMatchResult :=
  let actual_columns : Finset String := actual_names.toFinset
  let required_columns : Finset String := llm_output.required_columns.toFinset
  let available_columns : Finset String := required_columns ∩ actual_columns
  let missing_columns : Finset String := required_columns \ actual_columns
  let recommendations := generateRecommendations
    (sortedSet missing_columns) (sortedSet available_columns)
    llm_output.optional_columns (sortedSet actual_columns)
  { technical_summary := llm_output.technical_summary
    required_columns := llm_output.required_columns
    available_columns := sortedSet available_columns
    missing_columns := sortedSet missing_columns
    optional_columns := llm_output.optional_columns
    assumptions := llm_output.assumptions
    recommendations := recommendations }

/-- `match_columns(table_schema, llm_output)`; `none` models an uncaught
exception while extracting the actual column names. -/
def matchColumns (table_schema : TableSchema) (llm_output : ColumnPlanOutput) :
    Option ColumnMatchResult :=
  (getColumnNames table_schema).map (fun ns => matchColumnsCore ns llm_output)

/-- `AnalyzeColumnsResponse` from `app/routes/schema.py` (pydantic model):
`sql_filters` has `default=None`. -/
structure AnalyzeColumnsResponse where
  technical_summary : String
  required_columns : List String
  available_columns : List String
  missing_columns : List String
  optional_columns : List String
  sql_filters : Option Filters
  assumptions : String
  recommendations : List String
  analysis_complete : Bool
  deriving DecidableEq, Repr

/-- Step 5 of `analyze_columns` in `app/routes/analytics.py`:
`AnalyzeColumnsResponse(**match_result.to_dict())`.  `to_dict` emits the
keys `technical_summary`, `required_columns`, `available_columns`,
`missing_columns`, `optional_columns`, `assumptions`, `recommendations`
and `analysis_complete = (len(missing_columns) == 0)` — and no
`sql_filters` key, so that pydantic field takes its declared default
`None`. -/
def responseOfMatchResult (m : ColumnMatchResult) : AnalyzeColumnsResponse :=
  { technical_summary := m.technical_summary
    required_columns := m.required_columns
    available_columns := m.available_columns
    missing_columns := m.missing_columns
    optional_columns := m.optional_columns
    sql_filters := none
    assumptions := m.assumptions
    recommendations := m.recommendations
    analysis_complete := m.missing_columns.length == 0 }

/-- Steps 4–5 of `analyze_columns`: run the matcher on the schema and the
interpreter's plan and build the response body returned to the client. -/
def analyzeColumns (table_schema : TableSchema) (llm_output : ColumnPlanOutput) :
    Option AnalyzeColumnsResponse :=
  (matchColumns table_schema llm_output).map responseOfMatchResult

/-! ### Report generator (`app/services/report_generator.py`) -/

/-- STEP 1 of `generate_report`: `if limit > 1000: limit = 1000`. -/
def clampLimit (limit : Int) : Int :=
  if limit > 1000 then 1000 else limit

/-- `operator.replace('>', 'gt').replace('<', 'lt').replace('=', 'eq')`. -/
def sanitizeOpName (operator : String) : String :=
  ((operator.replace ">" "gt").replace "<" "lt").replace "=" "eq"

/-- `param_name = f"{col}_{...}"` for an operator filter. -/
def paramNameFor (col operator : String) : String :=
  col ++ "_" ++ sanitizeOpName operator

/-- The `if operator == '>' ... elif ...` chain: the condition string
appended for a recognized operator, `none` for an unsupported one. -/
def opCondition (col operator param_name : String) : Option String :=
  if operator = ">" then some (col ++ " > :" ++ param_name)
  else if operator = "<" then some (col ++ " < :" ++ param_name)
  else if operator = ">=" then some (col ++ " >= :" ++ param_name)
  else if operator = "<=" then some (col ++ " <= :" ++ param_name)
  else if operator = "=" then some (col ++ " = :" ++ param_name)
  else if operator = "!=" then some (col ++ " != :" ++ param_name)
  else none

/-- Conditions contributed by one `filters` entry: one equality condition
for a scalar value, and one condition per recognized operator for an
operator mapping. -/
def entryConditions (entry : String × PyFilter) : List String :=
  match entry with
  | (col, PyFilter.scalar _) => [col ++ " = :" ++ (col ++ "_eq")]
  | (col, PyFilter.ops l) =>
      l.filterMap (fun ov => opCondition col ov.1 (paramNameFor col ov.1))

/-- The `conditions` list accumulated by the `for col, value in
filters.items()` loop. -/
def buildConditions (filters : Filters) : List String :=
  (filters.map entryConditions).flatten

/-- Python `params[param_name] = value` on a dict: update in place when the
key exists (keeping its position), append otherwise. -/
def pyDictSet (d : List (String × PyVal)) (k : String) (v : PyVal) :
    List (String × PyVal) :=
  if d.any (fun kv => kv.1 = k) then
    d.map (fun kv => if kv.1 = k then (k, v) else kv)
  else d ++ [(k, v)]

/-- Python dict lookup (first — and only — binding of the key). -/
def pyDictGet (d : List (String × PyVal)) (k : String) : Option PyVal :=
  (d.find? (fun kv => kv.1 = k)).map (fun kv => kv.2)

/-- Inner `for operator, filter_value in value.items()` loop: every
operator/value pair stores its bind parameter, recognized or not. -/
def buildOpsParams (col : String) (l : List (String × PyVal))
    (params : List (String × PyVal)) : List (String × PyVal) :=
  match l with
  | [] => params
  | (operator, filter_value) :: rest =>
      buildOpsParams col rest
        (pyDictSet params (paramNameFor col operator) filter_value)

/-- The `params` dict accumulated by the filters loop. -/
def buildParamsAux (filters : Filters) (params : List (String × PyVal)) :
    List (String × PyVal) :=
  match filters with
  | [] => params
  | (col, PyFilter.scalar v) :: rest =>
      buildParamsAux rest (pyDictSet params (col ++ "_eq") v)
  | (col, PyFilter.ops l) :: rest =>
      buildParamsAux rest (buildOpsParams col l params)

/-- `params` after the filters loop, before `params['limit'] = limit`. -/
def buildParams (filters : Filters) : List (String × PyVal) :=
  buildParamsAux filters []

/-- STEP 2 of `generate_report`: the schema-qualified table name. -/
def fullTableName (schemaPrefix : Option String) (table_name : String) : String :=
  match schemaPrefix with
  | some s => s ++ "." ++ table_name
  | none => table_name

/-- The `where_clause` string (`""` when `filters` is falsy or no condition
was produced). -/
def whereClause (filters : Filters) : String :=
  if filters.isEmpty then ""
  else
    let conditions := buildConditions filters
    if conditions.isEmpty then ""
    else " WHERE " ++ String.intercalate " AND " conditions

/-- `sql_query = f"SELECT {columns_str} FROM {full_table_name}{where_clause}
LIMIT :limit"`. -/
def sqlQueryText (full_table : String) (columns : List String)
    (filters : Filters) : String :=
  "SELECT " ++ String.intercalate ", " columns ++ " FROM " ++ full_table ++
    whereClause filters ++ " LIMIT :limit"

/-- The query text and bind-parameter mapping handed to
`conn.execute(text(sql_query), params)`: the limit is clamped first
(STEP 1), and `params['limit'] = limit` stores the clamped value. -/
def generateReportQuery (schemaPrefix : Option String) (table_name : String)
    (columns : List String) (filters : Filters) (limit : Int) :
    String × List (String × PyVal) :=
  let limit := clampLimit limit
  let sql_query := sqlQueryText (fullTableName schemaPrefix table_name)
    columns filters
  (sql_query, pyDictSet (buildParams filters) "limit" (PyVal.int limit))

/-! ### Concrete inputs used by witnesses and counterexamples -/

/-- A schema with three well-formed column entries. -/
def schemaEx : TableSchema :=
  ⟨some [⟨some "mrr"⟩, ⟨some "industry"⟩, ⟨some "created_at"⟩]⟩

/-- A plan whose required columns are partly present in `schemaEx`. -/
def planEx : ColumnPlanOutput :=
  { technical_summary := "avg mrr by industry"
    required_columns := ["mrr", "industry", "segment"]
    optional_columns := ["country"]
    assumptions := ""
    sql_filters := none }

/-- The match result for `schemaEx` and `planEx`. -/
def matchEx : ColumnMatchResult :=
  matchColumnsCore ["mrr", "industry", "created_at"] planEx

/-! ### Basic facts about the matcher -/

theorem available_columns_def (ns : List String) (llm : ColumnPlanOutput) :
    (matchColumnsCore ns llm).available_columns
      = sortedSet (llm.required_columns.toFinset ∩ ns.toFinset) := rfl

theorem missing_columns_def (ns : List String) (llm : ColumnPlanOutput) :
    (matchColumnsCore ns llm).missing_columns
      = sortedSet (llm.required_columns.toFinset \ ns.toFinset) := rfl

theorem recommendations_def (ns : List String) (llm : ColumnPlanOutput) :
    (matchColumnsCore ns llm).recommendations
      = generateRecommendations
          (sortedSet (llm.required_columns.toFinset \ ns.toFinset))
          (sortedSet (llm.required_columns.toFinset ∩ ns.toFinset))
          llm.optional_columns (sortedSet ns.toFinset) := rfl

theorem matchColumns_some (schema : TableSchema) (llm : ColumnPlanOutput)
    (m : ColumnMatchResult) (h : matchColumns schema llm = some m) :
    ∃ ns, getColumnNames schema = some ns ∧ m = matchColumnsCore ns llm := by
  unfold matchColumns at h
  obtain ⟨ns, hns, hm⟩ := Option.map_eq_some'.mp h
  exact ⟨ns, hns, hm.symm⟩

theorem sortedSet_toFinset (s : Finset String) : (sortedSet s).toFinset = s :=
  Finset.sort_toFinset _ s

/-- C1: for every table schema and every RequirementPlan, the MatchResult
produced by `match_columns` satisfies the partition invariant: available
and missing columns partition the set of the plan's required columns
(union equals the required set, intersection empty). -/
theorem match_columns_partition (schema : TableSchema) (llm : ColumnPlanOutput)
    (m : ColumnMatchResult) (h : matchColumns schema llm = some m) :
    m.available_columns.toFinset ∪ m.missing_columns.toFinset
        = llm.required_columns.toFinset ∧
      Disjoint m.available_columns.toFinset m.missing_columns.toFinset := by
  obtain ⟨ns, hns, rfl⟩ := matchColumns_some schema llm m h
  rw [available_columns_def, missing_columns_def, sortedSet_toFinset,
    sortedSet_toFinset]
  constructor
  · rw [Finset.union_comm]
    exact Finset.sdiff_union_inter _ _
  · exact (Finset.disjoint_sdiff_inter _ _).symm

/-- Witness for C1 at a concrete schema and plan. -/
theorem match_columns_partition_witness :
    matchEx.available_columns.toFinset ∪ matchEx.missing_columns.toFinset
        = planEx.required_columns.toFinset ∧
      Disjoint matchEx.available_columns.toFinset
        matchEx.missing_columns.toFinset :=
  match_columns_partition schemaEx planEx matchEx rfl

/-- C5: `match_columns` is deterministic with normalized output ordering:
identical inputs give identical `available_columns` and `missing_columns`
sequences, and both are strictly ascending in the lexicographic order on
strings. -/
theorem match_columns_deterministic_sorted (s₁ s₂ : TableSchema)
    (p₁ p₂ : ColumnPlanOutput) (m₁ m₂ : ColumnMatchResult)
    (hs : s₁ = s₂) (hp : p₁ = p₂)
    (h₁ : matchColumns s₁ p₁ = some m₁) (h₂ : matchColumns s₂ p₂ = some m₂) :
    m₁.available_columns = m₂.available_columns ∧
      m₁.missing_columns = m₂.missing_columns ∧
      List.Sorted (fun a b => a < b) m₁.available_columns ∧
      List.Sorted (fun a b => a < b) m₁.missing_columns := by
  subst hs; subst hp
  rw [h₁] at h₂
  obtain rfl : m₁ = m₂ := by injection h₂
  obtain ⟨ns, hns, rfl⟩ := matchColumns_some s₁ p₁ m₁ h₁
  refine ⟨rfl, rfl, ?_, ?_⟩
  · rw [available_columns_def]
    exact Finset.sort_sorted_lt _
  · rw [missing_columns_def]
    exact Finset.sort_sorted_lt _

/-- Witness for C5 at a concrete schema and plan. -/
theorem match_columns_deterministic_sorted_witness :
    matchEx.available_columns = matchEx.available_columns ∧
      matchEx.missing_columns = matchEx.missing_columns ∧
      List.Sorted (fun a b => a < b) matchEx.available_columns ∧
      List.Sorted (fun a b => a < b) matchEx.missing_columns :=
  match_columns_deterministic_sorted schemaEx schemaEx planEx planEx
    matchEx matchEx rfl rfl rfl rfl

/-! ### Raising behaviour of the matcher (C9) -/

/-- A schema dict that has no `"columns"` key at all. -/
def schemaNoColumnsKey : TableSchema := ⟨none⟩

/-- A schema dict whose `"columns"` value is the empty list. -/
def schemaEmptyColumns : TableSchema := ⟨some []⟩

/-- A trivial plan. -/
def planTrivial : ColumnPlanOutput := ⟨"", [], [], "", none⟩

/-- C9 counterexample: the claim says absence of the schema's `columns`
collection fails fast (raises); but `match_columns` reads it with
`table_schema.get("columns", [])`, so a schema without a `columns` key
returns normally — exactly as if the collection were present and empty. -/
theorem match_columns_no_columns_key_returns :
    (matchColumns schemaNoColumnsKey planTrivial).isSome = true ∧
      matchColumns schemaNoColumnsKey planTrivial
        = matchColumns schemaEmptyColumns planTrivial :=
  ⟨rfl, rfl⟩

theorem columnNames_eq_none_iff (cols : List PyColumn) :
    columnNames cols = none ↔ ∃ c ∈ cols, c.name = none := by
  induction cols with
  | nil => simp [columnNames]
  | cons c rest ih =>
      cases hc : c.name with
      | none => simp [columnNames, hc]
      | some n => simp [columnNames, hc, Option.map_eq_none', ih]

/-- C9 amended: `match_columns` raises if and only if some entry of the
schema's columns collection lacks a `name`; a schema whose `columns`
collection is absent is treated as having an empty collection (the
`.get("columns", [])` default) and returns normally rather than raising. -/
theorem match_columns_raises_iff (schema : TableSchema)
    (llm : ColumnPlanOutput) :
    (matchColumns schema llm = none ↔
        ∃ c ∈ schema.columns.getD [], c.name = none) ∧
      matchColumns ⟨none⟩ llm ≠ none := by
  constructor
  · rw [matchColumns, Option.map_eq_none', getColumnNames]
    exact columnNames_eq_none_iff _
  · intro hcon
    rw [matchColumns, Option.map_eq_none', getColumnNames] at hcon
    simp [columnNames] at hcon

/-! ### Empty-required boundary (C6) -/

theorem sortedSet_contains (s : Finset String) (c : String) :
    (sortedSet s).contains c = decide (c ∈ s) := by
  by_cases hc : c ∈ s <;> simp [sortedSet, hc, Finset.mem_sort]

theorem sortedSet_empty : sortedSet (∅ : Finset String) = [] := by
  unfold sortedSet
  exact Finset.sort_empty _

theorem generateRecommendations_no_missing
    (available optional actual : List String) :
    generateRecommendations [] available optional actual
      = if (optional.filter (fun col => actual.contains col)).isEmpty
        then [allAvailableMsg]
        else [allAvailableMsg, optionalAvailableMsg
          (optional.filter (fun col => actual.contains col))] := rfl

/-- C6: when the plan's required columns are empty, the matcher yields
empty available and missing columns, `analysis_complete = true` (the
`len(missing_columns) == 0` computed by `to_dict`), and the
recommendations are exactly the "all available" message, together with the
optional-columns message precisely when some optional column occurs among
the schema's actual column names. -/
theorem match_columns_empty_required (schema : TableSchema)
    (llm : ColumnPlanOutput) (m : ColumnMatchResult) (names : List String)
    (hn : getColumnNames schema = some names)
    (h : matchColumns schema llm = some m)
    (hreq : llm.required_columns = []) :
    m.available_columns = [] ∧ m.missing_columns = [] ∧
      (m.missing_columns.length == 0) = true ∧
      m.recommendations
        = if llm.optional_columns.any (fun c => names.contains c) then
            [allAvailableMsg,
             optionalAvailableMsg
               (llm.optional_columns.filter (fun c => names.contains c))]
          else [allAvailableMsg] := by
  obtain ⟨ns, hns, rfl⟩ := matchColumns_some schema llm m h
  rw [hn] at hns
  obtain rfl : names = ns := by injection hns
  have hav : (matchColumnsCore names llm).available_columns = [] := by
    rw [available_columns_def, hreq]
    simp [sortedSet_empty]
  have hmi : (matchColumnsCore names llm).missing_columns = [] := by
    rw [missing_columns_def, hreq]
    simp [sortedSet_empty]
  refine ⟨hav, hmi, by rw [hmi]; rfl, ?_⟩
  rw [recommendations_def, hreq]
  have hpred : ∀ c, (sortedSet names.toFinset).contains c = names.contains c := by
    intro c
    rw [sortedSet_contains]
    by_cases hc : c ∈ names <;> simp [hc]
  simp only [List.toFinset_nil, Finset.empty_inter, Finset.empty_sdiff,
    sortedSet_empty]
  have hfil : llm.optional_columns.filter
        (fun col => (sortedSet names.toFinset).contains col)
      = llm.optional_columns.filter (fun c => names.contains c) :=
    List.filter_congr (fun c _ => hpred c)
  rw [generateRecommendations_no_missing, hfil]
  cases hany : llm.optional_columns.any (fun c => names.contains c) with
  | false =>
      have hfil0 : llm.optional_columns.filter (fun c => names.contains c) = [] := by
        rw [List.filter_eq_nil_iff]
        intro a ha
        simpa using List.any_eq_false.mp hany a ha
      simp [hfil0]
      intro x hx
      simpa using List.any_eq_false.mp hany x hx
  | true =>
      have hne : llm.optional_columns.filter (fun c => names.contains c) ≠ [] := by
        obtain ⟨x, hx, hqx⟩ := List.any_eq_true.mp hany
        intro h0
        exact absurd hqx (by simpa using List.filter_eq_nil_iff.mp h0 x hx)
      simp [List.isEmpty_iff, hne]
      obtain ⟨x, hx, hqx⟩ := List.any_eq_true.mp hany
      exact ⟨x, hx, by simpa using hqx⟩

/-- A plan with no required columns but with an optional column present in
`schemaEx`. -/
def planEmptyReq : ColumnPlanOutput := ⟨"x", [], ["industry"], "", none⟩

/-- The match result for `schemaEx` and `planEmptyReq`. -/
def matchEmptyReq : ColumnMatchResult :=
  matchColumnsCore ["mrr", "industry", "created_at"] planEmptyReq

/-! ### Fuzzy suggestion (C3) -/

/-- The spec's suggestion rule as a predicate on one missing name and one
actual column: some token of the missing name (lower-cased, underscores
replaced by spaces, split on whitespace) of length greater than 2 occurs
as a substring of the actual column's lower-cased name. -/
def specSuggests (missing_col actual_col : String) : Prop :=
  ∃ part ∈ tokensOf missing_col,
    2 < part.length ∧ part.data <:+: (actual_col.toLower).data

instance decSpecSuggests (m c : String) : Decidable (specSuggests m c) := by
  unfold specSuggests
  infer_instance

theorem anyPartMatches_iff (parts : List String) (s : String) :
    anyPartMatches parts s = true
      ↔ ∃ part ∈ parts, 2 < part.length ∧ part.data <:+: s.data := by
  induction parts with
  | nil => simp [anyPartMatches]
  | cons p rest ih =>
      unfold anyPartMatches
      by_cases hp : (decide (p.length > 2) && pyContains p s) = true
      · rw [if_pos hp]
        simp only [Bool.and_eq_true, decide_eq_true_eq, pyContains] at hp
        simp only [true_iff]
        exact ⟨p, List.mem_cons_self p rest, hp.1, hp.2⟩
      · rw [if_neg hp, ih]
        constructor
        · rintro ⟨part, hm, hcond⟩
          exact ⟨part, List.mem_cons_of_mem _ hm, hcond⟩
        · rintro ⟨part, hm, hcond⟩
          rcases List.mem_cons.mp hm with rfl | hm2
          · exact absurd (by
              simp only [Bool.and_eq_true, decide_eq_true_eq, pyContains,
                decide_eq_true_eq]
              exact ⟨hcond.1, hcond.2⟩) hp
          · exact ⟨part, hm2, hcond⟩

theorem specSuggests_iff (m c : String) :
    specSuggests m c ↔ anyPartMatches (tokensOf m) (c.toLower) = true := by
  unfold specSuggests
  exact (anyPartMatches_iff _ _).symm

theorem decide_specSuggests (m c : String) :
    decide (specSuggests m c) = anyPartMatches (tokensOf m) (c.toLower) := by
  cases hb : anyPartMatches (tokensOf m) (c.toLower) with
  | true => exact decide_eq_true ((specSuggests_iff m c).mpr hb)
  | false =>
      apply decide_eq_false
      intro hs
      have hcon := (specSuggests_iff m c).mp hs
      rw [hb] at hcon
      exact Bool.false_ne_true hcon

theorem findSimilarLoop_eq_filter (parts : List String) (cols : List String) :
    findSimilarLoop parts cols
      = cols.filter (fun c => anyPartMatches parts (c.toLower)) := by
  induction cols with
  | nil => rfl
  | cons c rest ih =>
      unfold findSimilarLoop
      by_cases hc : anyPartMatches parts c.toLower = true
      · rw [if_pos hc, ih, List.filter_cons, if_pos hc]
      · rw [if_neg hc, ih, List.filter_cons, if_neg hc]

/-- C3: `_find_similar_columns` returns exactly the actual columns
satisfying the token-substring rule; the result is a sublist of the
actual-columns collection, so each occurrence is kept at most once and
the suggestion order follows the iteration order of the actual columns as
provided (not sorted). -/
theorem find_similar_columns_spec (missing_col : String)
    (actual_columns : List String) :
    findSimilarColumns missing_col actual_columns
        = actual_columns.filter (fun c => decide (specSuggests missing_col c)) ∧
      List.Sublist (findSimilarColumns missing_col actual_columns)
        actual_columns := by
  have h1 : findSimilarColumns missing_col actual_columns
      = actual_columns.filter (fun c => decide (specSuggests missing_col c)) := by
    unfold findSimilarColumns
    rw [findSimilarLoop_eq_filter]
    exact List.filter_congr
      (fun c _ => (decide_specSuggests missing_col c).symm)
  exact ⟨h1, h1 ▸ List.filter_sublist _⟩

/-! ### Recommendation structure (C4) -/

/-- The suggestion messages as the spec describes them: one message per
missing column (in iteration order) whose fuzzy-suggestion list is
non-empty, naming up to the first 3 suggestions. -/
def suggestionMessagesSpec (missing_columns actual_columns : List String) :
    List String :=
  (missing_columns.filter
      (fun m => !(findSimilarColumns m actual_columns).isEmpty)).map
    (fun m => suggMsg m (findSimilarColumns m actual_columns))

theorem suggestionMsgs_eq_spec (missing actual : List String) :
    suggestionMsgs missing actual = suggestionMessagesSpec missing actual := by
  induction missing with
  | nil => rfl
  | cons m rest ih =>
      unfold suggestionMsgs suggestionMessagesSpec
      rw [List.filter_cons]
      by_cases hm : (findSimilarColumns m actual).isEmpty
      · simp only [hm, Bool.not_true, if_neg, ih, suggestionMessagesSpec]
        simp
      · simp only [List.isEmpty_iff] at hm
        simp [List.isEmpty_iff, hm, ih, suggestionMessagesSpec]

/-- Witness for C6 at a concrete schema and plan. -/
theorem match_columns_empty_required_witness :
    matchEmptyReq.available_columns = [] ∧ matchEmptyReq.missing_columns = [] ∧
      (matchEmptyReq.missing_columns.length == 0) = true ∧
      matchEmptyReq.recommendations
        = if planEmptyReq.optional_columns.any
              (fun c => (["mrr", "industry", "created_at"] : List String).contains c) then
            [allAvailableMsg,
             optionalAvailableMsg
               (planEmptyReq.optional_columns.filter
                 (fun c => (["mrr", "industry", "created_at"] : List String).contains c))]
          else [allAvailableMsg] :=
  match_columns_empty_required schemaEx planEmptyReq matchEmptyReq
    ["mrr", "industry", "created_at"] rfl rfl rfl

theorem boolean_gate (avail recs : List String) (f : String → Bool)
    (gen : String) :
    (if avail.isEmpty && !(recs.any f) then recs ++ [gen] else recs)
      = recs ++ (if avail = [] ∧ ∀ r ∈ recs, f r = false
                 then [gen] else []) := by
  by_cases hc : avail = [] ∧ ∀ r ∈ recs, f r = false
  · have hb : (avail.isEmpty && !(recs.any f)) = true := by
      obtain ⟨h1, h2⟩ := hc
      subst h1
      simp only [List.isEmpty_nil, Bool.true_and, Bool.not_eq_true']
      exact List.any_eq_false.mpr (fun x hx => by simp [h2 x hx])
    rw [if_pos hb, if_pos hc]
  · have hb : (avail.isEmpty && !(recs.any f)) = false := by
      rcases not_and_or.mp hc with h1 | h2
      · have hA2 : avail.isEmpty = false := by simp [List.isEmpty_iff, h1]
        simp [hA2]
      · have hany : recs.any f = true := by
          rw [List.any_eq_true]
          push_neg at h2
          obtain ⟨r, hr, hfr⟩ := h2
          exact ⟨r, hr, by simpa using hfr⟩
        simp [hany]
    have hb' : ¬ ((avail.isEmpty && !(recs.any f)) = true) := by
      rw [hb]
      simp
    rw [if_neg hb', if_neg hc]
    simp

/-- C4: with non-empty missing columns the recommendations list is exactly:
the missing-count message; then the partial-analysis message (non-empty
available columns) or the none-available message; then one suggestion
message per missing column whose fuzzy-suggestion list is non-empty, in
iteration order; and finally the generic "consider adding" message exactly
when the available columns are empty and no recommendation string so far
contains the suggestion marker. -/
theorem recommendations_structure (missing_columns available_columns
    optional_columns actual_columns : List String)
    (h : missing_columns ≠ []) :
    generateRecommendations missing_columns available_columns
        optional_columns actual_columns
      = (missingMsg missing_columns ::
          (if available_columns = [] then noAvailMsg
           else partialMsg available_columns) ::
          suggestionMessagesSpec missing_columns actual_columns) ++
        (if available_columns = [] ∧
            ∀ r ∈ missingMsg missing_columns ::
              (if available_columns = [] then noAvailMsg
               else partialMsg available_columns) ::
              suggestionMessagesSpec missing_columns actual_columns,
              pyContains "consider using" r = false
         then [genericAddMsg] else []) := by
  have hne : missing_columns.isEmpty = false := by
    simp [List.isEmpty_iff, h]
  unfold generateRecommendations
  rw [hne]
  simp only [Bool.false_eq_true, if_false, suggestionMsgs_eq_spec]
  rw [boolean_gate]
  rw [show ([missingMsg missing_columns] ++
        (if available_columns.isEmpty then [noAvailMsg]
         else [partialMsg available_columns])) ++
        suggestionMessagesSpec missing_columns actual_columns
      = missingMsg missing_columns ::
        (if available_columns = [] then noAvailMsg
         else partialMsg available_columns) ::
        suggestionMessagesSpec missing_columns actual_columns by
    by_cases hA : available_columns = []
    · subst hA
      simp
    · have hA2 : available_columns.isEmpty = false := by
        simp [List.isEmpty_iff, hA]
      simp [hA2, hA]]

/-- Witness for C4 at a concrete input. -/
theorem recommendations_structure_witness :
    generateRecommendations ["zzz_unmatched"] [] [] ["alpha"]
      = (missingMsg ["zzz_unmatched"] ::
          (if ([] : List String) = [] then noAvailMsg else partialMsg []) ::
          suggestionMessagesSpec ["zzz_unmatched"] ["alpha"]) ++
        (if ([] : List String) = [] ∧
            ∀ r ∈ missingMsg ["zzz_unmatched"] ::
              (if ([] : List String) = [] then noAvailMsg else partialMsg []) ::
              suggestionMessagesSpec ["zzz_unmatched"] ["alpha"],
              pyContains "consider using" r = false
         then [genericAddMsg] else []) :=
  recommendations_structure ["zzz_unmatched"] [] [] ["alpha"]
    (List.cons_ne_nil _ _)

/-! ### sql_filters passthrough (C2) -/

/-- A schema with a single column. -/
def schemaC2 : TableSchema := ⟨some [⟨some "mrr"⟩]⟩

/-- A plan whose interpreter output carries a non-trivial sql_filters
mapping. -/
def planC2 : ColumnPlanOutput :=
  { technical_summary := "avg mrr"
    required_columns := ["mrr"]
    optional_columns := []
    assumptions := ""
    sql_filters := some [("segment", PyFilter.scalar (PyVal.str "Enterprise"))] }

/-- C2, evaluated at the failing input: the plan carries sql_filters, yet
the response body built by `analyze_columns` carries `sql_filters = None`:
`ColumnMatchResult` has no sql_filters attribute and `to_dict` emits no
`sql_filters` key, so the pydantic default `None` is returned instead of
the plan's filter mapping. -/
theorem analyze_columns_drops_sql_filters :
    planC2.sql_filters
        = some [("segment", PyFilter.scalar (PyVal.str "Enterprise"))] ∧
      (analyzeColumns schemaC2 planC2).map AnalyzeColumnsResponse.sql_filters
        = some none :=
  ⟨rfl, rfl⟩

/-! ### Row-limit clamping (C7) -/

theorem find_set_mem (d : List (String × PyVal)) (k : String) (v : PyVal)
    (h : d.any (fun kv => kv.1 = k) = true) :
    (d.map (fun kv => if kv.1 = k then (k, v) else kv)).find?
        (fun kv => kv.1 = k) = some (k, v) := by
  induction d with
  | nil => simp at h
  | cons kv rest ih =>
      by_cases hk : kv.1 = k
      · simp [List.find?_cons, hk]
      · have h2 : rest.any (fun kv => kv.1 = k) = true := by
          simpa [List.any_cons, hk] using h
        simp [List.find?_cons, hk, ih h2]

theorem find_append_missing (d : List (String × PyVal)) (k : String) (v : PyVal)
    (h : d.any (fun kv => kv.1 = k) = false) :
    (d ++ [(k, v)]).find? (fun kv => kv.1 = k) = some (k, v) := by
  induction d with
  | nil => simp
  | cons kv rest ih =>
      simp only [List.any_cons, Bool.or_eq_false_iff] at h
      obtain ⟨h1, h2⟩ := h
      simp only [List.cons_append, List.find?_cons, h1]
      simpa [decide_eq_false_iff_not.mp h1] using ih h2

theorem pyDictGet_pyDictSet (d : List (String × PyVal)) (k : String)
    (v : PyVal) :
    pyDictGet (pyDictSet d k v) k = some v := by
  unfold pyDictGet pyDictSet
  cases h : d.any (fun kv => kv.1 = k) with
  | true =>
      rw [if_pos rfl, find_set_mem d k v h]
      rfl
  | false =>
      rw [if_neg (by simp), find_append_missing d k v h]
      rfl

/-- C7: the LIMIT value bound into the executed query (the value stored
under the `limit` bind parameter) equals the requested limit when it is at
most 1000, and equals 1000 when the requested limit exceeds 1000. -/
theorem row_limit_clamped (pre : Option String) (tbl : String)
    (cols : List String) (filters : Filters) (limit : Int) :
    (limit ≤ 1000 →
      pyDictGet (generateReportQuery pre tbl cols filters limit).2 "limit"
        = some (PyVal.int limit)) ∧
    (1000 < limit →
      pyDictGet (generateReportQuery pre tbl cols filters limit).2 "limit"
        = some (PyVal.int 1000)) := by
  have hget : pyDictGet (generateReportQuery pre tbl cols filters limit).2
      "limit" = some (PyVal.int (clampLimit limit)) := by
    unfold generateReportQuery
    exact pyDictGet_pyDictSet _ _ _
  constructor
  · intro hle
    rw [hget]
    unfold clampLimit
    rw [if_neg (by omega)]
  · intro hlt
    rw [hget]
    unfold clampLimit
    rw [if_pos (by omega)]

/-- Witness for C7 at a small and at an oversized requested limit. -/
theorem row_limit_clamped_witness :
    pyDictGet (generateReportQuery none "crm_customers" ["mrr"] [] 50).2
        "limit" = some (PyVal.int 50) ∧
      pyDictGet (generateReportQuery none "crm_customers" ["mrr"] [] 5000).2
        "limit" = some (PyVal.int 1000) :=
  ⟨(row_limit_clamped none "crm_customers" ["mrr"] [] 50).1 (by decide),
   (row_limit_clamped none "crm_customers" ["mrr"] [] 5000).2 (by decide)⟩

/-! ### Value-independence of the SQL text (C8) -/

/-- The shape of one filter value: a scalar, or the list of its operator
keys — everything except the user-supplied values. -/
def filterShape (f : PyFilter) : Option (List String) :=
  match f with
  | PyFilter.scalar _ => none
  | PyFilter.ops l => some (l.map Prod.fst)

/-- The shape of a filters mapping: its column keys and operator keys,
with all filter values erased. -/
def filtersShape (filters : Filters) : List (String × Option (List String)) :=
  filters.map (fun kv => (kv.1, filterShape kv.2))

/-- All scalar values carried by a filters mapping. -/
def filterValues (filters : Filters) : List PyVal :=
  (filters.map (fun kv => match kv.2 with
    | PyFilter.scalar v => [v]
    | PyFilter.ops l => l.map Prod.snd)).flatten

theorem entryConditions_shape (col : String) (f₁ f₂ : PyFilter)
    (h : filterShape f₁ = filterShape f₂) :
    entryConditions (col, f₁) = entryConditions (col, f₂) := by
  cases f₁ with
  | scalar v₁ =>
      cases f₂ with
      | scalar v₂ => rfl
      | ops l₂ => simp [filterShape] at h
  | ops l₁ =>
      cases f₂ with
      | scalar v₂ => simp [filterShape] at h
      | ops l₂ =>
          simp only [filterShape, Option.some.injEq] at h
          have hfm : ∀ (l : List (String × PyVal)),
              l.filterMap
                  (fun ov => opCondition col ov.1 (paramNameFor col ov.1))
                = (l.map Prod.fst).filterMap
                  (fun op => opCondition col op (paramNameFor col op)) := by
            intro l
            rw [List.filterMap_map]
            rfl
          show l₁.filterMap _ = l₂.filterMap _
          rw [hfm l₁, hfm l₂, h]

theorem buildConditions_cons (e : String × PyFilter) (fs : Filters) :
    buildConditions (e :: fs) = entryConditions e ++ buildConditions fs := rfl

theorem buildConditions_shape (f₁ f₂ : Filters)
    (h : filtersShape f₁ = filtersShape f₂) :
    buildConditions f₁ = buildConditions f₂ := by
  induction f₁ generalizing f₂ with
  | nil =>
      obtain rfl : f₂ = [] := by
        cases f₂ with
        | nil => rfl
        | cons a l => simp [filtersShape] at h
      rfl
  | cons kv rest ih =>
      cases f₂ with
      | nil => simp [filtersShape] at h
      | cons kv₂ rest₂ =>
          obtain ⟨c₁, g₁⟩ := kv
          obtain ⟨c₂, g₂⟩ := kv₂
          simp only [filtersShape, List.map_cons, List.cons.injEq,
            Prod.mk.injEq] at h
          obtain ⟨⟨hk, hs⟩, hrest⟩ := h
          subst hk
          rw [buildConditions_cons, buildConditions_cons,
            entryConditions_shape c₁ g₁ g₂ hs, ih rest₂ (by
              simpa [filtersShape] using hrest)]

theorem whereClause_shape (f₁ f₂ : Filters)
    (h : filtersShape f₁ = filtersShape f₂) :
    whereClause f₁ = whereClause f₂ := by
  have hlen : f₁.length = f₂.length := by
    simpa [filtersShape] using congrArg List.length h
  have hemp : f₁.isEmpty = f₂.isEmpty := by
    cases f₁ <;> cases f₂ <;> simp_all
  unfold whereClause
  rw [buildConditions_shape f₁ f₂ h, hemp]

theorem pyDictSet_vals (d : List (String × PyVal)) (k : String) (v : PyVal)
    (x : PyVal) (hx : x ∈ (pyDictSet d k v).map Prod.snd) :
    x = v ∨ x ∈ d.map Prod.snd := by
  unfold pyDictSet at hx
  by_cases h : d.any (fun kv => kv.1 = k) = true
  · rw [if_pos h, List.map_map] at hx
    obtain ⟨q, hq, hpq⟩ := List.mem_map.mp hx
    by_cases hk : q.1 = k
    · left
      rw [← hpq]
      simp [hk]
    · right
      rw [← hpq]
      simp only [Function.comp_apply, if_neg hk]
      exact List.mem_map_of_mem _ hq
  · rw [if_neg h, List.map_append] at hx
    rcases List.mem_append.mp hx with h1 | h2
    · exact Or.inr h1
    · left
      simpa using h2

theorem buildOpsParams_vals (col : String) (l : List (String × PyVal))
    (params : List (String × PyVal)) (x : PyVal)
    (hx : x ∈ (buildOpsParams col l params).map Prod.snd) :
    x ∈ l.map Prod.snd ∨ x ∈ params.map Prod.snd := by
  induction l generalizing params with
  | nil => exact Or.inr hx
  | cons ov rest ih =>
      unfold buildOpsParams at hx
      rcases ih _ hx with h1 | h2
      · left
        rw [List.map_cons]
        exact List.mem_cons_of_mem _ h1
      · rcases pyDictSet_vals _ _ _ _ h2 with rfl | h3
        · left
          rw [List.map_cons]
          exact List.mem_cons_self _ _
        · exact Or.inr h3

theorem filterValues_cons_scalar (col : String) (v : PyVal) (rest : Filters) :
    filterValues ((col, PyFilter.scalar v) :: rest)
      = v :: filterValues rest := rfl

theorem filterValues_cons_ops (col : String) (l : List (String × PyVal))
    (rest : Filters) :
    filterValues ((col, PyFilter.ops l) :: rest)
      = l.map Prod.snd ++ filterValues rest := rfl

theorem buildParamsAux_vals (filters : Filters)
    (params : List (String × PyVal)) (x : PyVal)
    (hx : x ∈ (buildParamsAux filters params).map Prod.snd) :
    x ∈ filterValues filters ∨ x ∈ params.map Prod.snd := by
  induction filters generalizing params with
  | nil => exact Or.inr hx
  | cons kv rest ih =>
      obtain ⟨col, g⟩ := kv
      cases g with
      | scalar v =>
          unfold buildParamsAux at hx
          rcases ih _ hx with h1 | h2
          · left
            rw [filterValues_cons_scalar]
            exact List.mem_cons_of_mem _ h1
          · rcases pyDictSet_vals _ _ _ _ h2 with rfl | h3
            · left
              rw [filterValues_cons_scalar]
              exact List.mem_cons_self _ _
            · exact Or.inr h3
      | ops l =>
          unfold buildParamsAux at hx
          rcases ih _ hx with h1 | h2
          · left
            rw [filterValues_cons_ops]
            exact List.mem_append_right _ h1
          · rcases buildOpsParams_vals _ _ _ _ h2 with h3 | h4
            · left
              rw [filterValues_cons_ops]
              exact List.mem_append_left _ h3
            · exact Or.inr h4

/-- C8: the executed SQL text is a function of the filter keys and
operators only — two filter mappings of the same shape but different
values yield the identical query text — and every value stored in the
bind-parameter mapping is the clamped limit or one of the filter values
(no synthesized text, values never enter the SQL string). -/
theorem sql_text_value_independent (pre : Option String) (tbl : String)
    (cols : List String) (f₁ f₂ : Filters) (limit : Int)
    (h : filtersShape f₁ = filtersShape f₂) :
    (generateReportQuery pre tbl cols f₁ limit).1
        = (generateReportQuery pre tbl cols f₂ limit).1 ∧
      ∀ x ∈ ((generateReportQuery pre tbl cols f₁ limit).2).map Prod.snd,
        x = PyVal.int (clampLimit limit) ∨ x ∈ filterValues f₁ := by
  constructor
  · unfold generateReportQuery sqlQueryText
    rw [whereClause_shape f₁ f₂ h]
  · intro x hx
    unfold generateReportQuery at hx
    rcases pyDictSet_vals _ _ _ _ hx with rfl | h2
    · exact Or.inl rfl
    · right
      unfold buildParams at h2
      rcases buildParamsAux_vals f₁ [] x h2 with h3 | h4
      · exact h3
      · simp at h4

/-- Witness for C8: same keys and operators, different values. -/
theorem sql_text_value_independent_witness :
    (generateReportQuery (some "public") "crm" ["a"]
        [("segment", PyFilter.scalar (PyVal.str "A")),
         ("mrr", PyFilter.ops [(">", PyVal.int 1)])] 100).1
      = (generateReportQuery (some "public") "crm" ["a"]
        [("segment", PyFilter.scalar (PyVal.str "B")),
         ("mrr", PyFilter.ops [(">", PyVal.int 999)])] 100).1 ∧
    ∀ x ∈ ((generateReportQuery (some "public") "crm" ["a"]
        [("segment", PyFilter.scalar (PyVal.str "A")),
         ("mrr", PyFilter.ops [(">", PyVal.int 1)])] 100).2).map Prod.snd,
      x = PyVal.int (clampLimit 100)
        ∨ x ∈ filterValues [("segment", PyFilter.scalar (PyVal.str "A")),
            ("mrr", PyFilter.ops [(">", PyVal.int 1)])] :=
  ⟨(sql_text_value_independent (some "public") "crm" ["a"]
      [("segment", PyFilter.scalar (PyVal.str "A")),
       ("mrr", PyFilter.ops [(">", PyVal.int 1)])]
      [("segment", PyFilter.scalar (PyVal.str "B")),
       ("mrr", PyFilter.ops [(">", PyVal.int 999)])] 100 rfl).1,
   (sql_text_value_independent (some "public") "crm" ["a"]
      [("segment", PyFilter.scalar (PyVal.str "A")),
       ("mrr", PyFilter.ops [(">", PyVal.int 1)])]
      [("segment", PyFilter.scalar (PyVal.str "B")),
       ("mrr", PyFilter.ops [(">", PyVal.int 999)])] 100 rfl).2⟩

/-! ### Unsupported filter operators (C10) -/

theorem buildConditions_append (f₁ f₂ : Filters) :
    buildConditions (f₁ ++ f₂) = buildConditions f₁ ++ buildConditions f₂ := by
  unfold buildConditions
  rw [List.map_append, List.flatten_append]

/-- C10: a filter entry whose operator is not one of the six comparison
operators contributes no condition to the executed SQL text (the query is
the one built without that entry), while its bind parameter is still
stored in the parameter mapping. -/
theorem unsupported_operator_ignored (col op : String) (v : PyVal)
    (fs₁ fs₂ : Filters) (pre : Option String) (tbl : String)
    (cols : List String) (limit : Int)
    (h : op ∉ ([">", "<", ">=", "<=", "=", "!="] : List String)) :
    (generateReportQuery pre tbl cols
          (fs₁ ++ (col, PyFilter.ops [(op, v)]) :: fs₂) limit).1
        = (generateReportQuery pre tbl cols (fs₁ ++ fs₂) limit).1 ∧
      buildParams [(col, PyFilter.ops [(op, v)])]
        = [(paramNameFor col op, v)] := by
  have hop : opCondition col op (paramNameFor col op) = none := by
    simp only [List.mem_cons, List.not_mem_nil, or_false, not_or] at h
    obtain ⟨h1, h2, h3, h4, h5, h6⟩ := h
    unfold opCondition
    rw [if_neg h1, if_neg h2, if_neg h3, if_neg h4, if_neg h5, if_neg h6]
  have hentry : entryConditions (col, PyFilter.ops [(op, v)]) = [] := by
    unfold entryConditions
    simp [hop]
  have hconds : buildConditions (fs₁ ++ (col, PyFilter.ops [(op, v)]) :: fs₂)
      = buildConditions (fs₁ ++ fs₂) := by
    rw [buildConditions_append, buildConditions_cons, hentry,
      List.nil_append, ← buildConditions_append]
  refine ⟨?_, rfl⟩
  unfold generateReportQuery sqlQueryText
  rw [show whereClause (fs₁ ++ (col, PyFilter.ops [(op, v)]) :: fs₂)
      = whereClause (fs₁ ++ fs₂) by
    unfold whereClause
    rw [hconds]
    have hne : (fs₁ ++ (col, PyFilter.ops [(op, v)]) :: fs₂).isEmpty = false := by
      cases fs₁ <;> simp
    rw [hne]
    by_cases hemp : (fs₁ ++ fs₂).isEmpty = true
    · obtain ⟨rfl, rfl⟩ := List.append_eq_nil.mp (List.isEmpty_iff.mp hemp)
      simp [buildConditions]
    · rw [Bool.not_eq_true] at hemp
      rw [hemp]]

/-- Witness for C10 with the unsupported operator `LIKE`. -/
theorem unsupported_operator_ignored_witness :
    (generateReportQuery none "crm" ["a"]
          ([("segment", PyFilter.scalar (PyVal.str "x"))] ++
            ("name", PyFilter.ops [("LIKE", PyVal.str "Jo")]) :: []) 10).1
        = (generateReportQuery none "crm" ["a"]
            ([("segment", PyFilter.scalar (PyVal.str "x"))] ++ []) 10).1 ∧
      buildParams [("name", PyFilter.ops [("LIKE", PyVal.str "Jo")])]
        = [(paramNameFor "name" "LIKE", PyVal.str "Jo")] :=
  unsupported_operator_ignored "name" "LIKE" (PyVal.str "Jo")
    [("segment", PyFilter.scalar (PyVal.str "x"))] [] none "crm" ["a"] 10
    (by decide)

end LlmAnalytics
